import Mathlib

/-!
Shallow embedding of the sockpuppet socket/address/error triad
(src/src/error.c, src/src/socketaddress.c, src/src/socket.c, src/src/util.c),
specialised to the POSIX/Linux configuration of the preprocessor:
`_WINDOWS` and `__OS2__` undefined, `AF_INET6` defined, `SOCKET_USE_POLL`
selected, `EINTR` defined, `EWOULDBLOCK == EAGAIN`, `ENOTSUP == EOPNOTSUPP`,
`SO_REUSEPORT` defined, `SO_NOSIGPIPE` undefined, and little-endian byte
order.  Numeric errno values are the Linux/x86-64 ones.

Syscalls are modelled by an oracle: a list of prescribed outcomes consumed in
order.  Every operation returns, besides its C return value, the post-state of
the socket, the error recorded in the process-wide error state during the call
(`none` = untouched), the list of descriptor syscalls it attempted, and the
unconsumed oracle events.  Unbounded `for(;;)` retry loops take a fuel
parameter; exhausted fuel (or an exhausted oracle inside the poll loop)
returns the failure sentinel with no error recorded, which no theorem below
relies on.
-/

namespace Sockpuppet

/-! ### Platform constants (Linux/x86-64) -/

def AF_INET : Nat := 2
def AF_INET6 : Nat := 10

def EPERM : Int := 1
def ENOENT : Int := 2
def EINTR : Int := 4
def EBADF : Int := 9
def EAGAIN : Int := 11
def ENOMEM : Int := 12
def EACCES : Int := 13
def EFAULT : Int := 14
def EEXIST : Int := 17
def ENOTDIR : Int := 20
def EISDIR : Int := 21
def EINVAL : Int := 22
def ENFILE : Int := 23
def EMFILE : Int := 24
def ENOSPC : Int := 28
def ENAMETOOLONG : Int := 36
def ENOSYS : Int := 38
def ENOSR : Int := 63
def ENONET : Int := 64
def ENOTSOCK : Int := 88
def EPROTOTYPE : Int := 91
def ENOPROTOOPT : Int := 92
def EPROTONOSUPPORT : Int := 93
def EOPNOTSUPP : Int := 95
def EAFNOSUPPORT : Int := 97
def EADDRINUSE : Int := 98
def EADDRNOTAVAIL : Int := 99
def ENETDOWN : Int := 100
def ENETUNREACH : Int := 101
def ECONNABORTED : Int := 103
def ENOBUFS : Int := 105
def EISCONN : Int := 106
def ENOTCONN : Int := 107
def ETIMEDOUT : Int := 110
def ECONNREFUSED : Int := 111
def EHOSTDOWN : Int := 112
def EHOSTUNREACH : Int := 113
def EALREADY : Int := 114
def EINPROGRESS : Int := 115
def EDQUOT : Int := 122

/-! ### Error context (src/src/error.c, src/include/error.h)

The C enum `ErrorIO` (include/error.h:33-57), renamed here because of Lean
naming constraints; the 23 enumerators keep their C names and numeric codes.
-/

inductive ErrorIOKind where
  | ERROR_IO_NONE
  | ERROR_IO_NO_RESOURCES
  | ERROR_IO_NOT_AVAILABLE
  | ERROR_IO_ACCESS_DENIED
  | ERROR_IO_CONNECTED
  | ERROR_IO_IN_PROGRESS
  | ERROR_IO_ABORTED
  | ERROR_IO_INVALID_ARGUMENT
  | ERROR_IO_NOT_SUPPORTED
  | ERROR_IO_TIMED_OUT
  | ERROR_IO_WOULD_BLOCK
  | ERROR_IO_ADDRESS_IN_USE
  | ERROR_IO_CONNECTION_REFUSED
  | ERROR_IO_NOT_CONNECTED
  | ERROR_IO_QUOTA
  | ERROR_IO_IS_DIRECTORY
  | ERROR_IO_NOT_DIRECTORY
  | ERROR_IO_NAMETOOLONG
  | ERROR_IO_EXISTS
  | ERROR_IO_NOT_EXISTS
  | ERROR_IO_NO_MORE
  | ERROR_IO_NOT_IMPLEMENTED
  | ERROR_IO_FAILED
  deriving DecidableEq

/-- Numeric value of each `ErrorIO` enumerator (include/error.h:34-56). -/
def errorIOCode : ErrorIOKind → Int
  | .ERROR_IO_NONE => 500
  | .ERROR_IO_NO_RESOURCES => 501
  | .ERROR_IO_NOT_AVAILABLE => 502
  | .ERROR_IO_ACCESS_DENIED => 503
  | .ERROR_IO_CONNECTED => 504
  | .ERROR_IO_IN_PROGRESS => 505
  | .ERROR_IO_ABORTED => 506
  | .ERROR_IO_INVALID_ARGUMENT => 507
  | .ERROR_IO_NOT_SUPPORTED => 508
  | .ERROR_IO_TIMED_OUT => 509
  | .ERROR_IO_WOULD_BLOCK => 510
  | .ERROR_IO_ADDRESS_IN_USE => 511
  | .ERROR_IO_CONNECTION_REFUSED => 512
  | .ERROR_IO_NOT_CONNECTED => 513
  | .ERROR_IO_QUOTA => 514
  | .ERROR_IO_IS_DIRECTORY => 515
  | .ERROR_IO_NOT_DIRECTORY => 516
  | .ERROR_IO_NAMETOOLONG => 517
  | .ERROR_IO_EXISTS => 518
  | .ERROR_IO_NOT_EXISTS => 519
  | .ERROR_IO_NO_MORE => 520
  | .ERROR_IO_NOT_IMPLEMENTED => 521
  | .ERROR_IO_FAILED => 522

/-- All 23 enumerators of the C `ErrorIO` enum. -/
def allErrorIOKinds : List ErrorIOKind :=
  [.ERROR_IO_NONE, .ERROR_IO_NO_RESOURCES, .ERROR_IO_NOT_AVAILABLE,
   .ERROR_IO_ACCESS_DENIED, .ERROR_IO_CONNECTED, .ERROR_IO_IN_PROGRESS,
   .ERROR_IO_ABORTED, .ERROR_IO_INVALID_ARGUMENT, .ERROR_IO_NOT_SUPPORTED,
   .ERROR_IO_TIMED_OUT, .ERROR_IO_WOULD_BLOCK, .ERROR_IO_ADDRESS_IN_USE,
   .ERROR_IO_CONNECTION_REFUSED, .ERROR_IO_NOT_CONNECTED, .ERROR_IO_QUOTA,
   .ERROR_IO_IS_DIRECTORY, .ERROR_IO_NOT_DIRECTORY, .ERROR_IO_NAMETOOLONG,
   .ERROR_IO_EXISTS, .ERROR_IO_NOT_EXISTS, .ERROR_IO_NO_MORE,
   .ERROR_IO_NOT_IMPLEMENTED, .ERROR_IO_FAILED]

/-- `error_get_io_from_system` (src/src/error.c:52-419), POSIX branch.
The switch becomes an if-chain over the (pairwise distinct) Linux errno
values; the `ENOTSUP` case is preprocessed out because `ENOTSUP == EOPNOTSUPP`
on Linux, and `EWOULDBLOCK`/`EAGAIN` collapse into the single `EAGAIN` case
(error.c:398-401). -/
def error_get_io_from_system (err_code : Int) : ErrorIOKind :=
  if err_code = 0 then .ERROR_IO_NONE
  else if err_code = EACCES then .ERROR_IO_ACCESS_DENIED
  else if err_code = EPERM then .ERROR_IO_ACCESS_DENIED
  else if err_code = ENOMEM then .ERROR_IO_NO_RESOURCES
  else if err_code = ENOSR then .ERROR_IO_NO_RESOURCES
  else if err_code = ENOBUFS then .ERROR_IO_NO_RESOURCES
  else if err_code = ENFILE then .ERROR_IO_NO_RESOURCES
  else if err_code = ENOSPC then .ERROR_IO_NO_RESOURCES
  else if err_code = EMFILE then .ERROR_IO_NO_RESOURCES
  else if err_code = EINVAL then .ERROR_IO_INVALID_ARGUMENT
  else if err_code = EBADF then .ERROR_IO_INVALID_ARGUMENT
  else if err_code = ENOTSOCK then .ERROR_IO_INVALID_ARGUMENT
  else if err_code = EFAULT then .ERROR_IO_INVALID_ARGUMENT
  else if err_code = EPROTOTYPE then .ERROR_IO_INVALID_ARGUMENT
  else if err_code = ENOPROTOOPT then .ERROR_IO_NOT_SUPPORTED
  else if err_code = EPROTONOSUPPORT then .ERROR_IO_NOT_SUPPORTED
  else if err_code = EAFNOSUPPORT then .ERROR_IO_NOT_SUPPORTED
  else if err_code = EOPNOTSUPP then .ERROR_IO_NOT_SUPPORTED
  else if err_code = EADDRNOTAVAIL then .ERROR_IO_NOT_AVAILABLE
  else if err_code = ENETUNREACH then .ERROR_IO_NOT_AVAILABLE
  else if err_code = ENETDOWN then .ERROR_IO_NOT_AVAILABLE
  else if err_code = EHOSTDOWN then .ERROR_IO_NOT_AVAILABLE
  else if err_code = ENONET then .ERROR_IO_NOT_AVAILABLE
  else if err_code = EHOSTUNREACH then .ERROR_IO_NOT_AVAILABLE
  else if err_code = EINPROGRESS then .ERROR_IO_IN_PROGRESS
  else if err_code = EALREADY then .ERROR_IO_IN_PROGRESS
  else if err_code = EISCONN then .ERROR_IO_CONNECTED
  else if err_code = ECONNREFUSED then .ERROR_IO_CONNECTION_REFUSED
  else if err_code = ENOTCONN then .ERROR_IO_NOT_CONNECTED
  else if err_code = ECONNABORTED then .ERROR_IO_ABORTED
  else if err_code = EADDRINUSE then .ERROR_IO_ADDRESS_IN_USE
  else if err_code = ETIMEDOUT then .ERROR_IO_TIMED_OUT
  else if err_code = EDQUOT then .ERROR_IO_QUOTA
  else if err_code = EISDIR then .ERROR_IO_IS_DIRECTORY
  else if err_code = ENOTDIR then .ERROR_IO_NOT_DIRECTORY
  else if err_code = EEXIST then .ERROR_IO_EXISTS
  else if err_code = ENOENT then .ERROR_IO_NOT_EXISTS
  else if err_code = ENAMETOOLONG then .ERROR_IO_NAMETOOLONG
  else if err_code = ENOSYS then .ERROR_IO_NOT_IMPLEMENTED
  else if err_code = EAGAIN then .ERROR_IO_WOULD_BLOCK
  else .ERROR_IO_FAILED

/-- The platform error numbers explicitly listed as cases of the switch in
`error_get_io_from_system` (POSIX branch). -/
def mappedSystemCodes : List Int :=
  [0, EACCES, EPERM, ENOMEM, ENOSR, ENOBUFS, ENFILE, ENOSPC, EMFILE,
   EINVAL, EBADF, ENOTSOCK, EFAULT, EPROTOTYPE, ENOPROTOOPT,
   EPROTONOSUPPORT, EAFNOSUPPORT, EOPNOTSUPP, EADDRNOTAVAIL, ENETUNREACH,
   ENETDOWN, EHOSTDOWN, ENONET, EHOSTUNREACH, EINPROGRESS, EALREADY,
   EISCONN, ECONNREFUSED, ENOTCONN, ECONNABORTED, EADDRINUSE, ETIMEDOUT,
   EDQUOT, EISDIR, ENOTDIR, EEXIST, ENOENT, ENAMETOOLONG, ENOSYS, EAGAIN]

/-- The process-wide error triple set by `error_set_error`
(src/src/error.c:466-474): `code`, `native_code` and `message`. -/
structure ErrState where
  code : Int
  native_code : Int
  message : String
  deriving DecidableEq

/-! ### Socket addresses (src/src/socketaddress.c, src/include/socketaddress.h)

Native sockaddr buffers are lists of bytes (each `< 256` when well formed),
laid out as on Linux/x86-64: `struct sockaddr_in` is 16 bytes
(family:u16 | port:u16 net order | addr:4 | zero:8) and `struct sockaddr_in6`
is 28 bytes (family:u16 | port:u16 net order | flowinfo:u32 | addr:16 |
scope_id:u32); multi-byte scalar fields other than the port are host
(little-endian) order, and `ntohs`/`htons` on the port compose with the
little-endian field layout into plain big-endian byte order. -/

def sizeof_sockaddr_in : Nat := 16
def sizeof_sockaddr_in6 : Nat := 28
def sizeof_sockaddr_storage : Nat := 128

/-- The C enum `SocketFamily` (include/socketaddress.h:54-62):
UNKNOWN = 0, INET = AF_INET, INET6 = AF_INET6. -/
inductive SocketFamily where
  | SOCKET_FAMILY_UNKNOWN
  | SOCKET_FAMILY_INET
  | SOCKET_FAMILY_INET6
  deriving DecidableEq

def SocketFamily.toNat : SocketFamily → Nat
  | .SOCKET_FAMILY_UNKNOWN => 0
  | .SOCKET_FAMILY_INET => AF_INET
  | .SOCKET_FAMILY_INET6 => AF_INET6

/-- `struct SocketAddress` (socketaddress.c:70-81).  `addr` is the content of
the `in_addr`/`in6_addr` union member selected by `family` (4 or 16 bytes);
the struct is calloc'd, so fields that are never written stay 0. -/
structure SocketAddress where
  family : SocketFamily
  addr : List Nat
  port : Nat
  flowinfo : Nat
  scope_id : Nat
  deriving DecidableEq

/-- Byte read from a buffer; reads past the end yield 0 (the C code never
does such a read on the buffers the theorems below quantify over). -/
def byteAt (b : List Nat) (i : Nat) : Nat := b.getD i 0

/-- The `len`-byte region of a buffer starting at offset `off` (the source of
a `memcpy` out of the buffer). -/
def byteField (b : List Nat) (off len : Nat) : List Nat := (b.drop off).take len

/-- Value of a u16 field from its two little-endian bytes. -/
def decodeU16mem (b : List Nat) : Nat := byteAt b 0 + 256 * byteAt b 1

/-- The two bytes of a u16 field holding value `v` (little-endian). -/
def encodeU16mem (v : Nat) : List Nat := [v % 256, v / 256 % 256]

/-- Value of a u32 field from its four little-endian bytes. -/
def decodeU32mem (b : List Nat) : Nat :=
  byteAt b 0 + 256 * byteAt b 1 + 65536 * byteAt b 2 + 16777216 * byteAt b 3

/-- The four bytes of a u32 field holding value `v` (little-endian). -/
def encodeU32mem (v : Nat) : List Nat :=
  [v % 256, v / 256 % 256, v / 65536 % 256, v / 16777216 % 256]

/-- `ntohs` applied to a u16 field: big-endian read of its two bytes. -/
def decodePortNet (b : List Nat) : Nat := byteAt b 0 * 256 + byteAt b 1

/-- `htons(v)` stored into a u16 field: big-endian bytes of `v`. -/
def encodePortNet (v : Nat) : List Nat := [v / 256 % 256, v % 256]

/-- `memcpy` of `n` bytes out of the zero-initialised address union. -/
def addrBytes (a : List Nat) (n : Nat) : List Nat :=
  (List.range n).map (fun i => byteAt a i)

/-- `socket_address_new_from_native` (socketaddress.c:83-132).  `native` is
the buffer together with its claimed length `len = b.length`; `none` stands
for the NULL pointer and for every `return NULL` path (truncated buffer,
unrecognised family, calloc failure is not modelled). -/
def socket_address_new_from_native (native : Option (List Nat)) : Option SocketAddress :=
  match native with
  | none => none
  | some b =>
    if b.length = 0 then none
    else
      let family := decodeU16mem (byteField b 0 2)
      if family = AF_INET then
        if b.length < sizeof_sockaddr_in then none
        else some { family := .SOCKET_FAMILY_INET,
                    addr := byteField b 4 4,
                    port := decodePortNet (byteField b 2 2),
                    flowinfo := 0, scope_id := 0 }
      else if family = AF_INET6 then
        if b.length < sizeof_sockaddr_in6 then none
        else some { family := .SOCKET_FAMILY_INET6,
                    addr := byteField b 8 16,
                    port := decodePortNet (byteField b 2 2),
                    flowinfo := decodeU32mem (byteField b 4 4),
                    scope_id := decodeU32mem (byteField b 24 4) }
      else none

/-- `socket_address_to_native` (socketaddress.c:289-335).  Returns the bytes
the function writes into `dest` (it fills every byte of the native structure,
including the zeroed `sin_zero` padding); `none` for every `return false`
path. -/
def socket_address_to_native (addr : Option SocketAddress) (destlen : Nat) : Option (List Nat) :=
  match addr with
  | none => none
  | some a =>
    if destlen = 0 then none
    else
      match a.family with
      | .SOCKET_FAMILY_INET =>
        if destlen < sizeof_sockaddr_in then none
        else some (encodeU16mem AF_INET ++ encodePortNet a.port ++
                   addrBytes a.addr 4 ++ List.replicate 8 0)
      | .SOCKET_FAMILY_INET6 =>
        if destlen < sizeof_sockaddr_in6 then none
        else some (encodeU16mem AF_INET6 ++ encodePortNet a.port ++
                   encodeU32mem a.flowinfo ++ addrBytes a.addr 16 ++
                   encodeU32mem a.scope_id)
      | .SOCKET_FAMILY_UNKNOWN => none

/-- `socket_address_get_native_size` (socketaddress.c:337-354). -/
def socket_address_get_native_size (addr : Option SocketAddress) : Nat :=
  match addr with
  | none => 0
  | some a =>
    match a.family with
    | .SOCKET_FAMILY_INET => sizeof_sockaddr_in
    | .SOCKET_FAMILY_INET6 => sizeof_sockaddr_in6
    | .SOCKET_FAMILY_UNKNOWN => 0

/-- `socket_address_get_family` (socketaddress.c:356-362). -/
def socket_address_get_family (addr : Option SocketAddress) : SocketFamily :=
  match addr with
  | none => .SOCKET_FAMILY_UNKNOWN
  | some a => a.family

/-- `socket_address_get_port` (socketaddress.c:430-436). -/
def socket_address_get_port (addr : Option SocketAddress) : Nat :=
  match addr with
  | none => 0
  | some a => a.port

/-- A well-formed native IPv4 address buffer: exactly a
`struct sockaddr_in` whose family tag is `AF_INET`, with byte-valued
entries and zeroed `sin_zero` padding. -/
def WellFormedNativeV4 (b : List Nat) : Prop :=
  ∃ p a0 a1 a2 a3, p < 65536 ∧ a0 < 256 ∧ a1 < 256 ∧ a2 < 256 ∧ a3 < 256 ∧
    b = encodeU16mem AF_INET ++ encodePortNet p ++ [a0, a1, a2, a3] ++
        List.replicate 8 0

/-- A well-formed native IPv6 address buffer: exactly a
`struct sockaddr_in6` whose family tag is `AF_INET6`, with byte-valued
entries. -/
def WellFormedNativeV6 (b : List Nat) : Prop :=
  ∃ p fi sc a16, p < 65536 ∧ fi < 4294967296 ∧ sc < 4294967296 ∧
    a16.length = 16 ∧ (∀ x ∈ a16, x < 256) ∧
    b = encodeU16mem AF_INET6 ++ encodePortNet p ++ encodeU32mem fi ++
        a16 ++ encodeU32mem sc

/-- The invariant of every successfully constructed `SocketAddress`: the
family is INET or INET6, the union holds the matching number of bytes, the
numeric fields fit their C types, and (calloc plus the IPv6-only setters)
flow-info and scope-id are 0 on an IPv4 address. -/
def ValidSocketAddress (a : SocketAddress) : Prop :=
  (a.family = .SOCKET_FAMILY_INET ∧ a.addr.length = 4 ∧
    (∀ x ∈ a.addr, x < 256) ∧ a.port < 65536 ∧ a.flowinfo = 0 ∧ a.scope_id = 0) ∨
  (a.family = .SOCKET_FAMILY_INET6 ∧ a.addr.length = 16 ∧
    (∀ x ∈ a.addr, x < 256) ∧ a.port < 65536 ∧ a.flowinfo < 4294967296 ∧
    a.scope_id < 4294967296)

/-! ### Address parsing (socketaddress.c:134-225) and classification -/

/-- Splits a character list on a separator, keeping empty groups. -/
def splitOnSep (sep : Char) (cs : List Char) : List (List Char) :=
  cs.foldr
    (fun c acc =>
      if c = sep then [] :: acc
      else match acc with
        | g :: gs => (c :: g) :: gs
        | [] => [[c]])
    [[]]

/-- Modelled from the spec: one decimal octet of the numeric IPv4 parse done
by the platform `inet_pton(AF_INET, ...)` (a libc routine, not part of src/):
1-3 decimal digits, no leading zero, value at most 255. -/
def parseDecOctet (cs : List Char) : Option Nat :=
  if cs = [] ∨ 3 < cs.length then none
  else if ¬ cs.all (fun c => c.isDigit) then none
  else if 1 < cs.length ∧ cs.headD '0' = '0' then none
  else
    let v := cs.foldl (fun acc c => acc * 10 + (c.toNat - 48)) 0
    if 255 < v then none else some v

/-- Modelled from the spec: the numeric IPv4 parse performed by the platform
`inet_pton(AF_INET, ...)` (not part of src/) — four dot-separated decimal
octets, yielding the four address bytes in network order. -/
def inet_pton4 (s : String) : Option (List Nat) :=
  match splitOnSep '.' s.toList with
  | [p0, p1, p2, p3] =>
    match parseDecOctet p0, parseDecOctet p1, parseDecOctet p2, parseDecOctet p3 with
    | some b0, some b1, some b2, some b3 => some [b0, b1, b2, b3]
    | _, _, _, _ => none
  | _ => none

/-- One 16-bit hexadecimal group of an IPv6 literal (1-4 hex digits). -/
def parseHexGroup (cs : List Char) : Option Nat :=
  if cs = [] ∨ 4 < cs.length then none
  else
    cs.foldl
      (fun acc c =>
        match acc with
        | none => none
        | some a =>
          if '0' ≤ c ∧ c ≤ '9' then some (a * 16 + (c.toNat - 48))
          else if 'a' ≤ c ∧ c ≤ 'f' then some (a * 16 + (c.toNat - 87))
          else if 'A' ≤ c ∧ c ≤ 'F' then some (a * 16 + (c.toNat - 55))
          else none)
      (some 0)

/-- Splits at the first `::`, if any. -/
def splitDoubleColon : List Char → Option (List Char × List Char)
  | [] => none
  | ':' :: ':' :: rest => some ([], rest)
  | c :: rest =>
    match splitDoubleColon rest with
    | some (l, r) => some (c :: l, r)
    | none => none

/-- Colon-separated hexadecimal groups ([] for the empty side of a `::`). -/
def parseGroups (cs : List Char) : Option (List Nat) :=
  if cs = [] then some []
  else (splitOnSep ':' cs).mapM parseHexGroup

/-- Modelled from the spec: the numeric IPv6 parse performed by the platform
`getaddrinfo` with `AI_NUMERICHOST` (not part of src/) — eight 16-bit hex
groups, with at most one `::` standing for at least one zero group (zone
suffixes and embedded IPv4 notation are not modelled).  Yields the eight
group values. -/
def parseIPv6groups (cs : List Char) : Option (List Nat) :=
  match splitDoubleColon cs with
  | none =>
    match parseGroups cs with
    | some gs => if gs.length = 8 then some gs else none
    | none => none
  | some (l, r) =>
    match parseGroups l, parseGroups r with
    | some gl, some gr =>
      if gl.length + gr.length ≤ 7 then
        some (gl ++ List.replicate (8 - gl.length - gr.length) 0 ++ gr)
      else none
    | _, _ => none

/-- The 16 network-order bytes of eight 16-bit IPv6 groups. -/
def groupsToBytes (gs : List Nat) : List Nat :=
  gs.flatMap (fun g => [g / 256 % 256, g % 256])

/-- `socket_address_new` (socketaddress.c:134-225), POSIX branch.  A string
containing a colon goes through the numeric `getaddrinfo` path, which is
accepted only when it yields a `sockaddr_in6` (whose port is then set to
`htons(port)` before `socket_address_new_from_native` re-parses it);
otherwise `inet_pton(AF_INET)` is tried first and `inet_pton(AF_INET6)`
second (the latter can never succeed on a colon-free string). -/
def socket_address_new (address : Option String) (port : Nat) : Option SocketAddress :=
  match address with
  | none => none
  | some s =>
    if s.toList.any (fun c => c = ':') then
      match (parseIPv6groups s.toList).map groupsToBytes with
      | some b16 =>
        socket_address_new_from_native
          (some (encodeU16mem AF_INET6 ++ encodePortNet port ++ encodeU32mem 0 ++
                 b16 ++ encodeU32mem 0))
      | none => none
    else
      match inet_pton4 s with
      | some b4 => some ⟨.SOCKET_FAMILY_INET, b4, port, 0, 0⟩
      | none =>
        match (parseIPv6groups s.toList).map groupsToBytes with
        | some b16 => some ⟨.SOCKET_FAMILY_INET6, b16, port, 0, 0⟩
        | none => none

/-- `socket_address_new_any` (socketaddress.c:227-256). -/
def socket_address_new_any (family : SocketFamily) (port : Nat) : Option SocketAddress :=
  match family with
  | .SOCKET_FAMILY_INET => some ⟨family, [0, 0, 0, 0], port, 0, 0⟩
  | .SOCKET_FAMILY_INET6 => some ⟨family, List.replicate 16 0, port, 0, 0⟩
  | .SOCKET_FAMILY_UNKNOWN => none

/-- `socket_address_new_loopback` (socketaddress.c:258-287).  Note the IPv4
loopback constant in the source is `{127, 0, 0, 0}`. -/
def socket_address_new_loopback (family : SocketFamily) (port : Nat) : Option SocketAddress :=
  match family with
  | .SOCKET_FAMILY_INET => some ⟨family, [127, 0, 0, 0], port, 0, 0⟩
  | .SOCKET_FAMILY_INET6 => some ⟨family, List.replicate 15 0 ++ [1], port, 0, 0⟩
  | .SOCKET_FAMILY_UNKNOWN => none

/-- `ntohl(*(uint32_t *) &addr->addr.sin_addr)`: big-endian read of the four
IPv4 address bytes. -/
def decodeU32be (b : List Nat) : Nat :=
  byteAt b 0 * 16777216 + byteAt b 1 * 65536 + byteAt b 2 * 256 + byteAt b 3

/-- `socket_address_is_any` (socketaddress.c:528-549): `INADDR_ANY` for IPv4,
`IN6_IS_ADDR_UNSPECIFIED` for IPv6. -/
def socket_address_is_any (addr : Option SocketAddress) : Bool :=
  match addr with
  | none => false
  | some a =>
    match a.family with
    | .SOCKET_FAMILY_UNKNOWN => false
    | .SOCKET_FAMILY_INET => decodeU32be a.addr = 0
    | .SOCKET_FAMILY_INET6 => a.addr.all (fun x => x = 0)

/-- `socket_address_is_loopback` (socketaddress.c:551-573): 127.0.0.0/8 for
IPv4, `IN6_IS_ADDR_LOOPBACK` (i.e. `::1`) for IPv6. -/
def socket_address_is_loopback (addr : Option SocketAddress) : Bool :=
  match addr with
  | none => false
  | some a =>
    match a.family with
    | .SOCKET_FAMILY_UNKNOWN => false
    | .SOCKET_FAMILY_INET => (decodeU32be a.addr).land 0xff000000 = 0x7f000000
    | .SOCKET_FAMILY_INET6 => a.addr = [0,0,0,0,0,0,0,0,0,0,0,0,0,0,0,1]

/-- `socket_address_free` (socketaddress.c:575-581): `true` iff the call
released the structure (NULL is returned on unchanged, with no effect). -/
def socket_address_free (addr : Option SocketAddress) : Bool :=
  match addr with
  | none => false
  | some _ => true

/-! ### Flow-info and scope-id (socketaddress.c:438-502)

The getters and setters are guarded by
`#if !defined(AF_INET6) || !defined(PLIBSYS_SOCKADDR_IN6_HAS_FLOWINFO)`
(resp. `..._HAS_SCOPEID`).  Nothing in this repository — which ships no build
system — defines the two `PLIBSYS_` macros, so in a build of the sources as
they stand the guard is always taken: the getters return 0 and the setters
are no-ops for every address.  The functions are therefore modelled with the
preprocessor condition as an explicit boolean parameter, and the
repository's own configuration of that parameter is recorded below. -/

/-- Whether `PLIBSYS_SOCKADDR_IN6_HAS_FLOWINFO` is defined in this
repository: it is not (no header, source file or build script defines it). -/
def sockaddr_in6_has_flowinfo : Bool := false

/-- Whether `PLIBSYS_SOCKADDR_IN6_HAS_SCOPEID` is defined in this
repository: it is not. -/
def sockaddr_in6_has_scope_id : Bool := false

/-- `socket_address_get_flow_info` (socketaddress.c:438-452), parametrised by
the `PLIBSYS_SOCKADDR_IN6_HAS_FLOWINFO` preprocessor condition. -/
def socket_address_get_flow_info (hasField : Bool) (addr : Option SocketAddress) : Nat :=
  match addr with
  | none => 0
  | some a =>
    if hasField = false then 0
    else if a.family ≠ .SOCKET_FAMILY_INET6 then 0
    else a.flowinfo

/-- `socket_address_set_flow_info` (socketaddress.c:470-485), parametrised by
the `PLIBSYS_SOCKADDR_IN6_HAS_FLOWINFO` preprocessor condition; returns the
post-state of the (in C, mutated in place) address. -/
def socket_address_set_flow_info (hasField : Bool) (addr : Option SocketAddress)
    (flowinfo : Nat) : Option SocketAddress :=
  match addr with
  | none => none
  | some a =>
    if hasField = false then some a
    else if a.family ≠ .SOCKET_FAMILY_INET6 then some a
    else some { a with flowinfo := flowinfo }

/-- `socket_address_get_scope_id` (socketaddress.c:454-468). -/
def socket_address_get_scope_id (hasField : Bool) (addr : Option SocketAddress) : Nat :=
  match addr with
  | none => 0
  | some a =>
    if hasField = false then 0
    else if a.family ≠ .SOCKET_FAMILY_INET6 then 0
    else a.scope_id

/-- `socket_address_set_scope_id` (socketaddress.c:487-502). -/
def socket_address_set_scope_id (hasField : Bool) (addr : Option SocketAddress)
    (scope_id : Nat) : Option SocketAddress :=
  match addr with
  | none => none
  | some a =>
    if hasField = false then some a
    else if a.family ≠ .SOCKET_FAMILY_INET6 then some a
    else some { a with scope_id := scope_id }

/-! ### Sockets (src/src/socket.c, src/include/socket.h)

Stray `error` tokens in some socket.c call sites (e.g.
`error_set_error(error, code, native, msg)`) are vestigial remnants of an
`Error **` out-parameter that no prototype in this repository declares; they
are dropped here and the remaining arguments modelled as the recorded
process-wide error, matching error.c's 3-argument `error_set_error`.

Each operation takes the prescribed outcomes of its syscalls (`events`,
consumed in order; `popEvent` of an exhausted oracle yields an
all-zero outcome) and, for `for(;;)` retry loops, a `fuel` bound. -/

def SOCK_STREAM : Int := 1
def SOCK_DGRAM : Int := 2
def SOCK_SEQPACKET : Int := 5
def FD_CLOEXEC : Int := 1

/-- `SOCKET_DEFAULT_BACKLOG` (socket.c:58). -/
def SOCKET_DEFAULT_BACKLOG : Int := 5

def SOCKET_PROTOCOL_UNKNOWN : Int := -1
def SOCKET_PROTOCOL_DEFAULT : Int := 0
def SOCKET_PROTOCOL_TCP : Int := 6
def SOCKET_PROTOCOL_UDP : Int := 17
def SOCKET_PROTOCOL_SCTP : Int := 132

/-- The C enum `SocketType` (include/socket.h:46-51). -/
inductive SocketType where
  | SOCKET_TYPE_UNKNOWN
  | SOCKET_TYPE_STREAM
  | SOCKET_TYPE_DATAGRAM
  | SOCKET_TYPE_SEQPACKET
  deriving DecidableEq

/-- The C enum `SocketIOCondition` (include/socket.h:60-63). -/
inductive SocketIOCondition where
  | SOCKET_IO_CONDITION_POLLIN
  | SOCKET_IO_CONDITION_POLLOUT
  deriving DecidableEq

/-- The C enum `SocketDirection` (include/socket.h:54-57). -/
inductive SocketDirection where
  | SOCKET_DIRECTION_SND
  | SOCKET_DIRECTION_RCV
  deriving DecidableEq

/-- `struct Socket` (socket.c:60-78); the one-bit fields become `Bool`,
`protocol` keeps its numeric `SocketProtocol` value. -/
structure Socket where
  family : SocketFamily
  protocol : Int
  type : SocketType
  fd : Int
  listen_backlog : Int
  timeout : Int
  blocking : Bool
  keepalive : Bool
  closed : Bool
  connected : Bool
  listening : Bool
  deriving DecidableEq

/-- Prescribed outcome of one syscall: its return value, the `errno` left
behind, an out-parameter value (`getsockopt` results) and an out-buffer
(`recvfrom` peer addresses). -/
structure SysRes where
  ret : Int
  errno : Int
  val : Int
  buf : List Nat
  deriving DecidableEq

/-- A descriptor syscall the modelled code attempted, with the arguments the
claims inspect. -/
inductive Syscall where
  | sysIoctl
  | sysGetsockopt
  | sysSetsockopt
  | sysGetsockname
  | sysGetpeername
  | sysBind
  | sysConnect
  | sysListen
  | sysAccept
  | sysRecv (buflen : Nat)
  | sysRecvFrom (buflen : Nat)
  | sysSend (buflen : Nat)
  | sysSendTo (buflen : Nat)
  | sysShutdown
  | sysClose
  | sysPoll (timeoutArg : Int) (cond : SocketIOCondition)
  | sysFcntl
  deriving DecidableEq

/-- Result of one modelled operation: the C return value, the post-state of
the socket handle (`none` when the caller passed NULL), the error recorded in
the process-wide error state during the call (`none` = untouched), the
syscalls attempted, and the unconsumed oracle events. -/
structure OpOut (α : Type) where
  ret : α
  sock : Option Socket
  err : Option ErrState
  trace : List Syscall
  rest : List SysRes

def popEvent : List SysRes → SysRes × List SysRes
  | [] => (⟨0, 0, 0, []⟩, [])
  | e :: rest => (e, rest)

def errInvalidArgument (msg : String) : ErrState :=
  ⟨errorIOCode .ERROR_IO_INVALID_ARGUMENT, 0, msg⟩

/-- The error recorded by `_XX__socket_check` on a closed handle
(socket.c:148). -/
def errClosed : ErrState :=
  ⟨errorIOCode .ERROR_IO_NOT_AVAILABLE, 0, "Socket is already closed"⟩

def errSys (k : ErrorIOKind) (native : Int) (msg : String) : ErrState :=
  ⟨errorIOCode k, native, msg⟩

/-- `_XX__socket_check` (socket.c:146-153): the closed-handle guard. -/
def _XX__socket_check (socket : Socket) : Bool × Option ErrState :=
  if socket.closed then (false, some errClosed) else (true, none)

/-- The poll loop of `socket_io_condition_wait` (socket.c:1469-1501,
`SOCKET_USE_POLL` backend, non-SCO): retry on `EINTR`, `1` = ready, `0` =
elapsed timeout, anything else classified. -/
def socket_io_condition_wait_loop (s : Socket) (cond : SocketIOCondition)
    (timeoutArg : Int) : Nat → List SysRes → OpOut Bool
  | 0, events => ⟨false, some s, none, [], events⟩
  | _ + 1, [] => ⟨false, some s, none, [], []⟩
  | fuel + 1, e :: rest =>
    if e.ret = -1 ∧ e.errno = EINTR then
      let out := socket_io_condition_wait_loop s cond timeoutArg fuel rest
      ⟨out.ret, out.sock, out.err, .sysPoll timeoutArg cond :: out.trace, out.rest⟩
    else if e.ret = 1 then ⟨true, some s, none, [.sysPoll timeoutArg cond], rest⟩
    else if e.ret = 0 then
      ⟨false, some s,
       some (errSys .ERROR_IO_TIMED_OUT e.errno "Timed out while waiting socket condition"),
       [.sysPoll timeoutArg cond], rest⟩
    else
      ⟨false, some s,
       some (errSys (error_get_io_from_system e.errno) e.errno
         "Failed to call poll() on socket"),
       [.sysPoll timeoutArg cond], rest⟩

/-- `socket_io_condition_wait` (socket.c:1394-1564, poll backend):
`timeout = socket->timeout > 0 ? socket->timeout : -1` (socket.c:1454). -/
def socket_io_condition_wait (socket : Option Socket) (cond : SocketIOCondition)
    (fuel : Nat) (events : List SysRes) : OpOut Bool :=
  match socket with
  | none => ⟨false, none, some (errInvalidArgument "Invalid input argument"), [], events⟩
  | some s =>
    match _XX__socket_check s with
    | (false, e) => ⟨false, some s, e, [], events⟩
    | (true, _) =>
      let timeoutArg : Int := if 0 < s.timeout then s.timeout else -1
      socket_io_condition_wait_loop s cond timeoutArg fuel events

/-- The `EINTR` retry loop around `connect` (socket.c:854-870), recursing on
the prescribed outcomes; yields `(conn_result, err_code, trace, rest)`. -/
def socket_connect_syscall_loop : List SysRes → Int × Int × List Syscall × List SysRes
  | [] => (0, 0, [.sysConnect], [])
  | e :: rest =>
    if e.ret = 0 then (0, 0, [.sysConnect], rest)
    else if e.errno = EINTR then
      let (c, ec, tr, rst) := socket_connect_syscall_loop rest
      (c, ec, .sysConnect :: tr, rst)
    else (e.ret, e.errno, [.sysConnect], rest)

/-- `socket_check_connect_result` (socket.c:663-694): reads the pending
`SO_ERROR` (the oracle's `val`), classifies a non-zero value, and sets
`connected` to whether it was zero. -/
def socket_check_connect_result (socket : Option Socket) (events : List SysRes) : OpOut Bool :=
  match socket with
  | none => ⟨false, none, some (errInvalidArgument "Invalid input argument"), [], events⟩
  | some s =>
    let (e, rest) := popEvent events
    if e.ret < 0 then
      ⟨false, some s,
       some (errSys (error_get_io_from_system e.errno) e.errno
         "Failed to call getsockopt() to get connection status"),
       [.sysGetsockopt], rest⟩
    else
      let err := if e.val ≠ 0 then
        some (errSys (error_get_io_from_system e.val) e.val "Error in socket layer")
        else none
      ⟨e.val = 0, some { s with connected := e.val = 0 }, err, [.sysGetsockopt], rest⟩

/-- `socket_connect` (socket.c:828-910). -/
def socket_connect (socket : Option Socket) (address : Option SocketAddress)
    (fuel : Nat) (events : List SysRes) : OpOut Bool :=
  match socket with
  | none => ⟨false, none, some (errInvalidArgument "Invalid input argument"), [], events⟩
  | some s =>
    match address with
    | none => ⟨false, some s, some (errInvalidArgument "Invalid input argument"), [], events⟩
    | some addr =>
      match _XX__socket_check s with
      | (false, e) => ⟨false, some s, e, [], events⟩
      | (true, _) =>
        match socket_address_to_native (some addr) sizeof_sockaddr_storage with
        | none =>
          ⟨false, some s,
           some (errSys .ERROR_IO_FAILED 0
             "Failed to convert socket address to native structure"), [], events⟩
        | some _ =>
          let (connResult, errCode, tr, rest) := socket_connect_syscall_loop events
          if connResult = 0 then ⟨true, some { s with connected := true }, none, tr, rest⟩
          else
            let sockErr := error_get_io_from_system errCode
            if sockErr = .ERROR_IO_WOULD_BLOCK ∨ sockErr = .ERROR_IO_IN_PROGRESS then
              if s.blocking then
                let w := socket_io_condition_wait (some s)
                  .SOCKET_IO_CONDITION_POLLOUT fuel rest
                if w.ret then
                  let c := socket_check_connect_result w.sock w.rest
                  if c.ret then
                    match c.sock with
                    | some s2 =>
                      ⟨true, some { s2 with connected := true }, c.err,
                       tr ++ w.trace ++ c.trace, c.rest⟩
                    | none => ⟨true, none, c.err, tr ++ w.trace ++ c.trace, c.rest⟩
                  else ⟨false, c.sock, c.err, tr ++ w.trace ++ c.trace, c.rest⟩
                else ⟨false, w.sock, w.err, tr ++ w.trace, w.rest⟩
              else
                ⟨false, some s,
                 some (errSys sockErr errCode "Couldn't block non-blocking socket"),
                 tr, rest⟩
            else
              ⟨false, some s,
               some (errSys sockErr errCode "Failed to call connect() on socket"),
               tr, rest⟩

/-- `socket_bind` (socket.c:753-826): two best-effort `setsockopt` calls
(`SO_REUSEADDR`, `SO_REUSEPORT`) whose failures only warn — `allow_reuse`
only selects the option values — then the address conversion, then `bind`. -/
def socket_bind (socket : Option Socket) (address : Option SocketAddress)
    (allow_reuse : Bool) (events : List SysRes) : OpOut Bool :=
  match socket with
  | none => ⟨false, none, some (errInvalidArgument "Invalid input argument"), [], events⟩
  | some s =>
    match address with
    | none => ⟨false, some s, some (errInvalidArgument "Invalid input argument"), [], events⟩
    | some addr =>
      match _XX__socket_check s with
      | (false, e) => ⟨false, some s, e, [], events⟩
      | (true, _) =>
        let (_, r1) := popEvent events
        let (_, r2) := popEvent r1
        let tr0 : List Syscall := [.sysSetsockopt, .sysSetsockopt]
        match socket_address_to_native (some addr) sizeof_sockaddr_storage with
        | none =>
          ⟨false, some s,
           some (errSys .ERROR_IO_FAILED 0
             "Failed to convert socket address to native structure"), tr0, r2⟩
        | some _ =>
          let (e3, r3) := popEvent r2
          if e3.ret < 0 then
            ⟨false, some s,
             some (errSys (error_get_io_from_system e3.errno) e3.errno
               "Failed to call bind() on socket"), tr0 ++ [.sysBind], r3⟩
          else ⟨true, some s, none, tr0 ++ [.sysBind], r3⟩

/-- `socket_listen` (socket.c:912-935). -/
def socket_listen (socket : Option Socket) (events : List SysRes) : OpOut Bool :=
  match socket with
  | none => ⟨false, none, some (errInvalidArgument "Invalid input argument"), [], events⟩
  | some s =>
    match _XX__socket_check s with
    | (false, e) => ⟨false, some s, e, [], events⟩
    | (true, _) =>
      let (e1, r1) := popEvent events
      if e1.ret < 0 then
        ⟨false, some s,
         some (errSys (error_get_io_from_system e1.errno) e1.errno
           "Failed to call listen() on socket"), [.sysListen], r1⟩
      else ⟨true, some { s with listening := true }, none, [.sysListen], r1⟩

/-- `_XX__socket_set_details_from_fd` (socket.c:155-294): introspects the
descriptor via `getsockopt(SO_TYPE)` (out-value = native type),
`getsockname` (out-value = address family), `getpeername` (success sets
`connected`) and `getsockopt(SO_KEEPALIVE)`.  The `optlen` sanity check
always passes on this platform, and the `SO_DOMAIN` re-query for zero-length
names only refills a variable the function never reads, so neither is
modelled. -/
def _XX__socket_set_details_from_fd (s : Socket) (events : List SysRes) :
    Option Socket × Option ErrState × List Syscall × List SysRes :=
  let (e1, r1) := popEvent events
  if e1.ret ≠ 0 then
    (none,
     some (errSys (error_get_io_from_system e1.errno) e1.errno
       "Failed to call getsockopt() to get socket info for fd"),
     [.sysGetsockopt], r1)
  else
    let ty : SocketType :=
      if e1.val = SOCK_STREAM then .SOCKET_TYPE_STREAM
      else if e1.val = SOCK_DGRAM then .SOCKET_TYPE_DATAGRAM
      else if e1.val = SOCK_SEQPACKET then .SOCKET_TYPE_SEQPACKET
      else .SOCKET_TYPE_UNKNOWN
    let (e2, r2) := popEvent r1
    if e2.ret ≠ 0 then
      (none,
       some (errSys (error_get_io_from_system e2.errno) e2.errno
         "Failed to call getsockname() to get socket address info"),
       [.sysGetsockopt, .sysGetsockname], r2)
    else
      let fam : SocketFamily :=
        if e2.val = (AF_INET : Nat) then .SOCKET_FAMILY_INET
        else if e2.val = (AF_INET6 : Nat) then .SOCKET_FAMILY_INET6
        else .SOCKET_FAMILY_UNKNOWN
      let proto : Int :=
        if fam ≠ .SOCKET_FAMILY_UNKNOWN then
          match ty with
          | .SOCKET_TYPE_STREAM => SOCKET_PROTOCOL_TCP
          | .SOCKET_TYPE_DATAGRAM => SOCKET_PROTOCOL_UDP
          | .SOCKET_TYPE_SEQPACKET => SOCKET_PROTOCOL_SCTP
          | .SOCKET_TYPE_UNKNOWN => s.protocol
        else s.protocol
      let peer := if fam ≠ .SOCKET_FAMILY_UNKNOWN then some (popEvent r2) else none
      let connected := match peer with
        | some (e3, _) => if 0 ≤ e3.ret then true else s.connected
        | none => s.connected
      let trPeer : List Syscall := match peer with
        | some _ => [.sysGetpeername]
        | none => []
      let r3 := match peer with
        | some (_, r) => r
        | none => r2
      let (e4, r4) := popEvent r3
      let keepalive := if e4.ret = 0 then e4.val ≠ 0 else false
      let s2 : Socket := { s with type := ty, family := fam, protocol := proto, connected := connected, keepalive := keepalive }
      (some s2, none, [.sysGetsockopt, .sysGetsockname] ++ trPeer ++ [.sysGetsockopt], r4)

/-- `socket_new_from_fd` (socket.c:325-387): validates the fd, introspects
it, forces the descriptor non-blocking (`ioctl(FIONBIO)`), and applies the
defaults (`SO_NOSIGPIPE` does not exist on this platform). -/
def socket_new_from_fd (fd : Int) (events : List SysRes) :
    Option Socket × Option ErrState × List Syscall × List SysRes :=
  if fd < 0 then
    (none, some (errInvalidArgument "Unable to create socket from bad fd"), [], events)
  else
    let init : Socket :=
      ⟨.SOCKET_FAMILY_UNKNOWN, 0, .SOCKET_TYPE_UNKNOWN, fd, 0, 0,
       false, false, false, false, false⟩
    match _XX__socket_set_details_from_fd init events with
    | (none, err, tr, rest) => (none, err, tr, rest)
    | (some s1, _, tr, rest) =>
      let (e5, r5) := popEvent rest
      if e5.ret < 0 then
        (none,
         some (errSys (error_get_io_from_system e5.errno) e5.errno
           "Failed to set socket blocking flags"),
         tr ++ [.sysIoctl], r5)
      else
        let s2 : Socket := { s1 with listen_backlog := SOCKET_DEFAULT_BACKLOG, timeout := 0, blocking := true }
        (some s2, none, tr ++ [.sysIoctl], r5)

/-- The accept retry loop plus tail of `socket_accept` (socket.c:958-1013):
wait for read-readiness when logically blocking, retry on `EINTR` and (for
blocking sockets) spurious would-block, then the `FD_CLOEXEC` fixup on and
wrapping of the accepted descriptor (closing it if wrapping fails). -/
def socket_accept_loop (s : Socket) : Nat → List SysRes → OpOut (Option Socket)
  | 0, events => ⟨none, some s, none, [], events⟩
  | fuel + 1, events =>
    let w : OpOut Bool :=
      if s.blocking then
        socket_io_condition_wait (some s) .SOCKET_IO_CONDITION_POLLIN (fuel + 1) events
      else ⟨true, some s, none, [], events⟩
    if w.ret = false then ⟨none, some s, w.err, w.trace, w.rest⟩
    else
      let (e, rest) := popEvent w.rest
      let tr := w.trace ++ [Syscall.sysAccept]
      if e.ret < 0 then
        if e.errno = EINTR then
          let out := socket_accept_loop s fuel rest
          ⟨out.ret, out.sock, out.err, tr ++ out.trace, out.rest⟩
        else
          let sockErr := error_get_io_from_system e.errno
          if s.blocking ∧ sockErr = .ERROR_IO_WOULD_BLOCK then
            let out := socket_accept_loop s fuel rest
            ⟨out.ret, out.sock, out.err, tr ++ out.trace, out.rest⟩
          else
            ⟨none, some s,
             some (errSys sockErr e.errno "Failed to call accept() on socket"),
             tr, rest⟩
      else
        let (e6, r6) := popEvent rest
        let trFcntl : List Syscall :=
          if e6.ret ≠ -1 ∧ e6.ret.land FD_CLOEXEC = 0 then [.sysFcntl, .sysFcntl]
          else [.sysFcntl]
        let r7 := if e6.ret ≠ -1 ∧ e6.ret.land FD_CLOEXEC = 0 then (popEvent r6).2 else r6
        match socket_new_from_fd e.ret r7 with
        | (none, err, tr2, rest2) =>
          let (_, rest3) := popEvent rest2
          ⟨none, some s, err, tr ++ trFcntl ++ tr2 ++ [.sysClose], rest3⟩
        | (some child, _, tr2, rest2) =>
          ⟨some { child with protocol := s.protocol }, some s, none,
           tr ++ trFcntl ++ tr2, rest2⟩

/-- `socket_accept` (socket.c:937-1014). -/
def socket_accept (socket : Option Socket) (fuel : Nat) (events : List SysRes) :
    OpOut (Option Socket) :=
  match socket with
  | none => ⟨none, none, some (errInvalidArgument "Invalid input argument"), [], events⟩
  | some s =>
    match _XX__socket_check s with
    | (false, e) => ⟨none, some s, e, [], events⟩
    | (true, _) => socket_accept_loop s fuel events

/-- The receive retry loop of `socket_receive` (socket.c:1033-1063). -/
def socket_receive_loop (s : Socket) (buflen : Nat) : Nat → List SysRes → OpOut Int
  | 0, events => ⟨-1, some s, none, [], events⟩
  | fuel + 1, events =>
    let w : OpOut Bool :=
      if s.blocking then
        socket_io_condition_wait (some s) .SOCKET_IO_CONDITION_POLLIN (fuel + 1) events
      else ⟨true, some s, none, [], events⟩
    if w.ret = false then ⟨-1, some s, w.err, w.trace, w.rest⟩
    else
      let (e, rest) := popEvent w.rest
      let tr := w.trace ++ [Syscall.sysRecv buflen]
      if e.ret < 0 then
        if e.errno = EINTR then
          let out := socket_receive_loop s buflen fuel rest
          ⟨out.ret, out.sock, out.err, tr ++ out.trace, out.rest⟩
        else
          let sockErr := error_get_io_from_system e.errno
          if s.blocking ∧ sockErr = .ERROR_IO_WOULD_BLOCK then
            let out := socket_receive_loop s buflen fuel rest
            ⟨out.ret, out.sock, out.err, tr ++ out.trace, out.rest⟩
          else
            ⟨-1, some s,
             some (errSys sockErr e.errno "Failed to call recv() on socket"),
             tr, rest⟩
      else ⟨e.ret, some s, none, tr, rest⟩

/-- `socket_receive` (socket.c:1016-1066).  Note the argument guard rejects
only a NULL socket or buffer — a zero `buflen` is passed through to
`recv`. -/
def socket_receive (socket : Option Socket) (buffer : Option Unit) (buflen : Nat)
    (fuel : Nat) (events : List SysRes) : OpOut Int :=
  match socket with
  | none => ⟨-1, none, some (errInvalidArgument "Invalid input argument"), [], events⟩
  | some s =>
    match buffer with
    | none => ⟨-1, some s, some (errInvalidArgument "Invalid input argument"), [], events⟩
    | some _ =>
      match _XX__socket_check s with
      | (false, e) => ⟨-1, some s, e, [], events⟩
      | (true, _) => socket_receive_loop s buflen fuel events

/-- The recvfrom retry loop of `socket_receive_from` (socket.c:1089-1125);
on success the peer address bytes are the oracle outcome's `buf`. -/
def socket_receive_from_loop (s : Socket) (buflen : Nat) :
    Nat → List SysRes → OpOut (Int × Option (List Nat))
  | 0, events => ⟨(-1, none), some s, none, [], events⟩
  | fuel + 1, events =>
    let w : OpOut Bool :=
      if s.blocking then
        socket_io_condition_wait (some s) .SOCKET_IO_CONDITION_POLLIN (fuel + 1) events
      else ⟨true, some s, none, [], events⟩
    if w.ret = false then ⟨(-1, none), some s, w.err, w.trace, w.rest⟩
    else
      let (e, rest) := popEvent w.rest
      let tr := w.trace ++ [Syscall.sysRecvFrom buflen]
      if e.ret < 0 then
        if e.errno = EINTR then
          let out := socket_receive_from_loop s buflen fuel rest
          ⟨out.ret, out.sock, out.err, tr ++ out.trace, out.rest⟩
        else
          let sockErr := error_get_io_from_system e.errno
          if s.blocking ∧ sockErr = .ERROR_IO_WOULD_BLOCK then
            let out := socket_receive_from_loop s buflen fuel rest
            ⟨out.ret, out.sock, out.err, tr ++ out.trace, out.rest⟩
          else
            ⟨(-1, none), some s,
             some (errSys sockErr e.errno "Failed to call recvfrom() on socket"),
             tr, rest⟩
      else ⟨(e.ret, some e.buf), some s, none, tr, rest⟩

/-- `socket_receive_from` (socket.c:1068-1132).  Returns the byte count and,
for a non-NULL `address` out-parameter, the converted peer address.  Its
argument guard does reject `buflen == 0`. -/
def socket_receive_from (socket : Option Socket) (addressOut : Bool)
    (buffer : Option Unit) (buflen : Nat) (fuel : Nat) (events : List SysRes) :
    OpOut (Int × Option SocketAddress) :=
  match socket with
  | none => ⟨(-1, none), none, some (errInvalidArgument "Invalid input argument"), [], events⟩
  | some s =>
    if buffer = none ∨ buflen = 0 then
      ⟨(-1, none), some s, some (errInvalidArgument "Invalid input argument"), [], events⟩
    else
      match _XX__socket_check s with
      | (false, e) => ⟨(-1, none), some s, e, [], events⟩
      | (true, _) =>
        let out := socket_receive_from_loop s buflen fuel events
        let addr := if addressOut then
            match out.ret.2 with
            | some bytes => socket_address_new_from_native (some bytes)
            | none => none
          else none
        ⟨(out.ret.1, addr), out.sock, out.err, out.trace, out.rest⟩

/-- The send retry loop of `socket_send` (socket.c:1151-1185). -/
def socket_send_loop (s : Socket) (buflen : Nat) : Nat → List SysRes → OpOut Int
  | 0, events => ⟨-1, some s, none, [], events⟩
  | fuel + 1, events =>
    let w : OpOut Bool :=
      if s.blocking then
        socket_io_condition_wait (some s) .SOCKET_IO_CONDITION_POLLOUT (fuel + 1) events
      else ⟨true, some s, none, [], events⟩
    if w.ret = false then ⟨-1, some s, w.err, w.trace, w.rest⟩
    else
      let (e, rest) := popEvent w.rest
      let tr := w.trace ++ [Syscall.sysSend buflen]
      if e.ret < 0 then
        if e.errno = EINTR then
          let out := socket_send_loop s buflen fuel rest
          ⟨out.ret, out.sock, out.err, tr ++ out.trace, out.rest⟩
        else
          let sockErr := error_get_io_from_system e.errno
          if s.blocking ∧ sockErr = .ERROR_IO_WOULD_BLOCK then
            let out := socket_send_loop s buflen fuel rest
            ⟨out.ret, out.sock, out.err, tr ++ out.trace, out.rest⟩
          else
            ⟨-1, some s,
             some (errSys sockErr e.errno "Failed to call send() on socket"),
             tr, rest⟩
      else ⟨e.ret, some s, none, tr, rest⟩

/-- `socket_send` (socket.c:1134-1188).  Its argument guard rejects a NULL
socket or buffer and `buflen == 0`. -/
def socket_send (socket : Option Socket) (buffer : Option Unit) (buflen : Nat)
    (fuel : Nat) (events : List SysRes) : OpOut Int :=
  match socket with
  | none => ⟨-1, none, some (errInvalidArgument "Invalid input argument"), [], events⟩
  | some s =>
    if buffer = none ∨ buflen = 0 then
      ⟨-1, some s, some (errInvalidArgument "Invalid input argument"), [], events⟩
    else
      match _XX__socket_check s with
      | (false, e) => ⟨-1, some s, e, [], events⟩
      | (true, _) => socket_send_loop s buflen fuel events

/-- The sendto retry loop of `socket_send_to` (socket.c:1219-1253). -/
def socket_send_to_loop (s : Socket) (buflen : Nat) : Nat → List SysRes → OpOut Int
  | 0, events => ⟨-1, some s, none, [], events⟩
  | fuel + 1, events =>
    let w : OpOut Bool :=
      if s.blocking then
        socket_io_condition_wait (some s) .SOCKET_IO_CONDITION_POLLOUT (fuel + 1) events
      else ⟨true, some s, none, [], events⟩
    if w.ret = false then ⟨-1, some s, w.err, w.trace, w.rest⟩
    else
      let (e, rest) := popEvent w.rest
      let tr := w.trace ++ [Syscall.sysSendTo buflen]
      if e.ret < 0 then
        if e.errno = EINTR then
          let out := socket_send_to_loop s buflen fuel rest
          ⟨out.ret, out.sock, out.err, tr ++ out.trace, out.rest⟩
        else
          let sockErr := error_get_io_from_system e.errno
          if s.blocking ∧ sockErr = .ERROR_IO_WOULD_BLOCK then
            let out := socket_send_to_loop s buflen fuel rest
            ⟨out.ret, out.sock, out.err, tr ++ out.trace, out.rest⟩
          else
            ⟨-1, some s,
             some (errSys sockErr e.errno "Failed to call sendto() on socket"),
             tr, rest⟩
      else ⟨e.ret, some s, none, tr, rest⟩

/-- `socket_send_to` (socket.c:1190-1256).  Note the argument guard rejects
only a NULL socket, address or buffer — a zero `buflen` is passed through to
`sendto`. -/
def socket_send_to (socket : Option Socket) (address : Option SocketAddress)
    (buffer : Option Unit) (buflen : Nat) (fuel : Nat) (events : List SysRes) :
    OpOut Int :=
  match socket with
  | none => ⟨-1, none, some (errInvalidArgument "Invalid input argument"), [], events⟩
  | some s =>
    if address = none ∨ buffer = none then
      ⟨-1, some s, some (errInvalidArgument "Invalid input argument"), [], events⟩
    else
      match _XX__socket_check s with
      | (false, e) => ⟨-1, some s, e, [], events⟩
      | (true, _) =>
        match socket_address_to_native address sizeof_sockaddr_storage with
        | none =>
          ⟨-1, some s,
           some (errSys .ERROR_IO_FAILED 0
             "Failed to convert socket address to native structure"), [], events⟩
        | some _ => socket_send_to_loop s buflen fuel events

/-- `socket_close` (socket.c:1258-1290): success immediately when already
closed; otherwise one `sys_close` (on Linux a single `close`), which on
success clears `connected`/`listening`, marks `closed` and invalidates the
descriptor. -/
def socket_close (socket : Option Socket) (events : List SysRes) : OpOut Bool :=
  match socket with
  | none => ⟨false, none, some (errInvalidArgument "Invalid input argument"), [], events⟩
  | some s =>
    if s.closed then ⟨true, some s, none, [], events⟩
    else
      let (e, rest) := popEvent events
      if e.ret = 0 then
        let s2 : Socket := { s with connected := false, closed := true, listening := false, fd := -1 }
        ⟨true, some s2, none, [.sysClose], rest⟩
      else
        ⟨false, some s,
         some (errSys (error_get_io_from_system e.errno) e.errno
           "Failed to close socket"), [.sysClose], rest⟩

/-- `socket_shutdown` (socket.c:1292-1339): no-op success when both flags
are false; clears `connected` only when both directions are shut down. -/
def socket_shutdown (socket : Option Socket) (shutdown_read shutdown_write : Bool)
    (events : List SysRes) : OpOut Bool :=
  match socket with
  | none => ⟨false, none, some (errInvalidArgument "Invalid input argument"), [], events⟩
  | some s =>
    match _XX__socket_check s with
    | (false, e) => ⟨false, some s, e, [], events⟩
    | (true, _) =>
      if shutdown_read = false ∧ shutdown_write = false then
        ⟨true, some s, none, [], events⟩
      else
        let (e1, r1) := popEvent events
        if e1.ret ≠ 0 then
          ⟨false, some s,
           some (errSys (error_get_io_from_system e1.errno) e1.errno
             "Failed to call shutdown() on socket"), [.sysShutdown], r1⟩
        else
          let s2 := if shutdown_read ∧ shutdown_write then
            { s with connected := false } else s
          ⟨true, some s2, none, [.sysShutdown], r1⟩

/-- `socket_set_buffer_size` (socket.c:1363-1392). -/
def socket_set_buffer_size (socket : Option Socket) (dir : SocketDirection)
    (size : Nat) (events : List SysRes) : OpOut Bool :=
  match socket with
  | none => ⟨false, none, some (errInvalidArgument "Invalid input argument"), [], events⟩
  | some s =>
    match _XX__socket_check s with
    | (false, e) => ⟨false, some s, e, [], events⟩
    | (true, _) =>
      let (e1, r1) := popEvent events
      if e1.ret ≠ 0 then
        ⟨false, some s,
         some (errSys (error_get_io_from_system e1.errno) e1.errno
           "Failed to call setsockopt() on socket to set buffer size"),
         [.sysSetsockopt], r1⟩
      else ⟨true, some s, none, [.sysSetsockopt], r1⟩

/-- `socket_free` (socket.c:1341-1361): NULL returns with no effect;
otherwise the handle is closed (if needed) and its memory released.  `ret`
is whether the memory was released. -/
def socket_free (socket : Option Socket) (events : List SysRes) : OpOut Bool :=
  match socket with
  | none => ⟨false, none, none, [], events⟩
  | some s =>
    let c := socket_close (some s) events
    ⟨true, none, c.err, c.trace, c.rest⟩

/-- `socket_get_fd` (socket.c:506-513). -/
def socket_get_fd (socket : Option Socket) : Int :=
  match socket with
  | none => -1
  | some s => s.fd

/-- `socket_is_closed` (socket.c:654-661). -/
def socket_is_closed (socket : Option Socket) : Bool :=
  match socket with
  | none => true
  | some s => s.closed

/-- `socket_is_connected` (socket.c:645-652). -/
def socket_is_connected (socket : Option Socket) : Bool :=
  match socket with
  | none => false
  | some s => s.connected

/-! ### Concrete handles, addresses and buffers used by the witnesses -/

/-- A well-formed native IPv4 buffer: `127.0.0.1:8080`. -/
def witnessV4bytes : List Nat := [2, 0, 31, 144, 127, 0, 0, 1, 0, 0, 0, 0, 0, 0, 0, 0]

/-- A constructed IPv6 address (`[::1]:443`, flow-info 7, scope-id 3). -/
def witnessAddr6 : SocketAddress :=
  ⟨.SOCKET_FAMILY_INET6, [0,0,0,0,0,0,0,0,0,0,0,0,0,0,0,1], 443, 7, 3⟩

/-- An open, logically non-blocking TCP socket handle. -/
def witnessOpenSocket : Socket :=
  ⟨.SOCKET_FAMILY_INET, SOCKET_PROTOCOL_TCP, .SOCKET_TYPE_STREAM, 3, 5, 0,
   false, false, false, false, false⟩

/-- A second open, logically non-blocking TCP socket handle. -/
def witnessOpenSocketB : Socket :=
  ⟨.SOCKET_FAMILY_INET, SOCKET_PROTOCOL_TCP, .SOCKET_TYPE_STREAM, 3, 5, 0,
   false, false, false, false, false⟩

/-- An already-closed socket handle. -/
def witnessClosedSocket : Socket :=
  ⟨.SOCKET_FAMILY_INET, SOCKET_PROTOCOL_TCP, .SOCKET_TYPE_STREAM, -1, 5, 0,
   true, false, true, false, false⟩

/-- An open, logically blocking TCP socket with a 5000 ms timeout. -/
def witnessTimeoutSocket : Socket :=
  ⟨.SOCKET_FAMILY_INET, SOCKET_PROTOCOL_TCP, .SOCKET_TYPE_STREAM, 3, 5, 5000,
   true, false, false, false, false⟩

/-- A constructed IPv4 address (`127.0.0.1:80`). -/
def witnessConnectAddr : SocketAddress :=
  ⟨.SOCKET_FAMILY_INET, [127, 0, 0, 1], 80, 0, 0⟩

/-- A constructed IPv6 address (`[::1]:443`). -/
def witnessAddr6C9 : SocketAddress :=
  ⟨.SOCKET_FAMILY_INET6, [0,0,0,0,0,0,0,0,0,0,0,0,0,0,0,1], 443, 0, 0⟩

/-! ## Theorems -/

/-- Helper: the numeric `ErrorIO` code 509 belongs to the timed-out kind
alone. -/
theorem errorIOCode_eq_timed_out (k : ErrorIOKind) :
    errorIOCode k = errorIOCode .ERROR_IO_TIMED_OUT ↔ k = .ERROR_IO_TIMED_OUT := by
  cases k <;> simp [errorIOCode]

/-- Helper: every poll the wait loop issues carries the timeout argument and
direction the loop was entered with. -/
theorem wait_loop_poll_timeout_arg (s : Socket) (cond : SocketIOCondition)
    (timeoutArg : Int) :
    ∀ (fuel : Nat) (events : List SysRes) (t : Int) (c : SocketIOCondition),
      Syscall.sysPoll t c ∈
        (socket_io_condition_wait_loop s cond timeoutArg fuel events).trace →
      t = timeoutArg ∧ c = cond := by
  intro fuel
  induction fuel with
  | zero => intro events t c h; simp [socket_io_condition_wait_loop] at h
  | succ n ih =>
    intro events t c h
    match events with
    | [] => simp [socket_io_condition_wait_loop] at h
    | e :: rest =>
      by_cases h1 : e.ret = -1 ∧ e.errno = EINTR
      · simp [socket_io_condition_wait_loop, h1] at h
        rcases h with ⟨ht, hc⟩ | h
        · exact ⟨ht, hc⟩
        · exact ih rest t c h
      · by_cases h2 : e.ret = 1 <;> by_cases h3 : e.ret = 0 <;>
          simp [socket_io_condition_wait_loop, h1, h2, h3] at h <;>
          exact ⟨h.1, h.2⟩

/-- Helper: if no prescribed poll outcome reports elapsed timeout (`ret = 0`)
or classifies to the timed-out kind, the wait loop never records a timed-out
error. -/
theorem wait_loop_no_timed_out (s : Socket) (cond : SocketIOCondition)
    (timeoutArg : Int) :
    ∀ (fuel : Nat) (events : List SysRes),
      (∀ e ∈ events, e.ret ≠ 0 ∧
        error_get_io_from_system e.errno ≠ .ERROR_IO_TIMED_OUT) →
      ∀ st, (socket_io_condition_wait_loop s cond timeoutArg fuel events).err = some st →
        st.code ≠ errorIOCode .ERROR_IO_TIMED_OUT := by
  intro fuel
  induction fuel with
  | zero => intro events _ st h; simp [socket_io_condition_wait_loop] at h
  | succ n ih =>
    intro events hev st h
    match events with
    | [] => simp [socket_io_condition_wait_loop] at h
    | e :: rest =>
      have he := hev e (by simp)
      by_cases h1 : e.ret = -1 ∧ e.errno = EINTR
      · simp [socket_io_condition_wait_loop, h1] at h
        exact ih rest (fun x hx => hev x (by simp [hx])) st h
      · by_cases h2 : e.ret = 1
        · simp [socket_io_condition_wait_loop, h1, h2] at h
        · by_cases h3 : e.ret = 0
          · exact absurd h3 he.1
          · simp [socket_io_condition_wait_loop, h1, h2, h3] at h
            subst h
            simp [errSys]
            intro hcode
            exact absurd ((errorIOCode_eq_timed_out _).mp hcode) he.2

/-- Claim C1: socket-address conversion round-trips.  For every well-formed
native IPv4 or IPv6 address buffer `b` (exact structure size, byte-valued
entries, zero `sin_zero` padding), `socket_address_to_native` applied to
`socket_address_new_from_native b` reproduces `b`; and for every
successfully constructed `SocketAddress` (the `ValidSocketAddress`
invariant), `socket_address_new_from_native` applied to the buffer written
by `socket_address_to_native` yields an equal address — same family,
address bytes, port, flow-info and scope-id. -/
theorem socket_address_native_roundtrip :
    (∀ b : List Nat, WellFormedNativeV4 b ∨ WellFormedNativeV6 b →
      socket_address_to_native (socket_address_new_from_native (some b)) b.length = some b) ∧
    (∀ a : SocketAddress, ValidSocketAddress a →
      socket_address_new_from_native
        (socket_address_to_native (some a) (socket_address_get_native_size (some a))) = some a) := by
  constructor
  · rintro b (⟨p, a0, a1, a2, a3, hp, h0, h1, h2, h3, rfl⟩ |
              ⟨p, fi, sc, a16, hp, hfi, hsc, hlen, hbytes, rfl⟩)
    · simp [socket_address_new_from_native, socket_address_to_native, byteField, byteAt,
        decodeU16mem, decodePortNet, encodeU16mem, encodePortNet, addrBytes,
        AF_INET, AF_INET6, sizeof_sockaddr_in, sizeof_sockaddr_in6, decodeU32mem,
        encodeU32mem, List.range_succ, List.replicate]
      omega
    · match a16, hlen with
      | [x0,x1,x2,x3,x4,x5,x6,x7,x8,x9,x10,x11,x12,x13,x14,x15], _ =>
        simp [socket_address_new_from_native, socket_address_to_native, byteField, byteAt,
          decodeU16mem, decodePortNet, encodeU16mem, encodePortNet, addrBytes,
          AF_INET, AF_INET6, sizeof_sockaddr_in, sizeof_sockaddr_in6, decodeU32mem,
          encodeU32mem, List.range_succ]
        simp at hbytes
        omega
  · rintro ⟨fam, addr, p, fi, sc⟩
      (⟨hf, hlen, hbytes, hp, hfi, hsc⟩ | ⟨hf, hlen, hbytes, hp, hfi, hsc⟩) <;> subst hf
    · match addr, hlen with
      | [x0,x1,x2,x3], _ =>
        simp at hbytes
        simp [socket_address_new_from_native, socket_address_to_native,
          socket_address_get_native_size, byteField, byteAt,
          decodeU16mem, decodePortNet, encodeU16mem, encodePortNet, addrBytes,
          AF_INET, AF_INET6, sizeof_sockaddr_in, sizeof_sockaddr_in6, decodeU32mem,
          encodeU32mem, List.range_succ, List.replicate]
        simp only [SocketAddress.port, SocketAddress.flowinfo, SocketAddress.scope_id]
          at hp hfi hsc
        omega
    · match addr, hlen with
      | [x0,x1,x2,x3,x4,x5,x6,x7,x8,x9,x10,x11,x12,x13,x14,x15], _ =>
        simp at hbytes
        simp [socket_address_new_from_native, socket_address_to_native,
          socket_address_get_native_size, byteField, byteAt,
          decodeU16mem, decodePortNet, encodeU16mem, encodePortNet, addrBytes,
          AF_INET, AF_INET6, sizeof_sockaddr_in, sizeof_sockaddr_in6, decodeU32mem,
          encodeU32mem, List.range_succ]
        simp only [SocketAddress.port, SocketAddress.flowinfo, SocketAddress.scope_id]
          at hp hfi hsc
        omega

/-- Witness for C1 at the concrete buffer `127.0.0.1:8080` and the concrete
address `[::1]:443` with flow-info 7 and scope-id 3. -/
theorem socket_address_native_roundtrip_witness :
    socket_address_to_native (socket_address_new_from_native (some witnessV4bytes))
      witnessV4bytes.length = some witnessV4bytes ∧
    socket_address_new_from_native
      (socket_address_to_native (some witnessAddr6)
        (socket_address_get_native_size (some witnessAddr6))) = some witnessAddr6 :=
  ⟨socket_address_native_roundtrip.1 witnessV4bytes
     (Or.inl ⟨8080, 127, 0, 0, 1, by decide, by decide, by decide, by decide,
       by decide, by decide⟩),
   socket_address_native_roundtrip.2 witnessAddr6
     (Or.inr ⟨rfl, by decide, by decide, by decide, by decide, by decide⟩)⟩

/-- Claim C2: `error_get_io_from_system` is total and closed over the 23
portable kinds — every `ErrorIOKind` value is one of the 23 enumerators,
input 0 maps to the none kind, and every platform error number outside the
switch's explicit cases maps to `ERROR_IO_FAILED`. -/
theorem error_classification_total :
    (∀ e : ErrorIOKind, e ∈ allErrorIOKinds) ∧
    allErrorIOKinds.length = 23 ∧
    error_get_io_from_system 0 = .ERROR_IO_NONE ∧
    (∀ n : Int, n ∉ mappedSystemCodes → error_get_io_from_system n = .ERROR_IO_FAILED) := by
  refine ⟨fun e => by cases e <;> simp [allErrorIOKinds], by decide, rfl, ?_⟩
  intro n hn
  simp only [mappedSystemCodes, List.mem_cons, List.not_mem_nil, or_false, not_or] at hn
  obtain ⟨h1, h2, h3, h4, h5, h6, h7, h8, h9, h10, h11, h12, h13, h14, h15, h16, h17,
    h18, h19, h20, h21, h22, h23, h24, h25, h26, h27, h28, h29, h30, h31, h32, h33,
    h34, h35, h36, h37, h38, h39, h40⟩ := hn
  unfold error_get_io_from_system
  rw [if_neg h1, if_neg h2, if_neg h3, if_neg h4, if_neg h5, if_neg h6, if_neg h7,
    if_neg h8, if_neg h9, if_neg h10, if_neg h11, if_neg h12, if_neg h13, if_neg h14,
    if_neg h15, if_neg h16, if_neg h17, if_neg h18, if_neg h19, if_neg h20, if_neg h21,
    if_neg h22, if_neg h23, if_neg h24, if_neg h25, if_neg h26, if_neg h27, if_neg h28,
    if_neg h29, if_neg h30, if_neg h31, if_neg h32, if_neg h33, if_neg h34, if_neg h35,
    if_neg h36, if_neg h37, if_neg h38, if_neg h39, if_neg h40]

/-- Witness for C2 at the unmapped platform error number 3 (`ESRCH`). -/
theorem error_classification_total_witness :
    ((3 : Int) ∉ mappedSystemCodes) ∧ error_get_io_from_system 3 = .ERROR_IO_FAILED :=
  ⟨by decide, error_classification_total.2.2.2 3 (by decide)⟩

/-- Claim C3: the closed-handle guard.  On a socket whose `closed` flag is
set, every mutating operation returns its failure sentinel with the
not-available error recorded, attempts no descriptor syscall (empty trace)
and consumes no oracle event. -/
theorem closed_socket_operations_guarded :
    ∀ s : Socket, s.closed = true →
      (∀ a reuse events, socket_bind (some s) (some a) reuse events =
        ⟨false, some s, some errClosed, [], events⟩) ∧
      (∀ a fuel events, socket_connect (some s) (some a) fuel events =
        ⟨false, some s, some errClosed, [], events⟩) ∧
      (∀ events, socket_listen (some s) events =
        ⟨false, some s, some errClosed, [], events⟩) ∧
      (∀ fuel events, socket_accept (some s) fuel events =
        ⟨none, some s, some errClosed, [], events⟩) ∧
      (∀ buflen fuel events, socket_receive (some s) (some ()) buflen fuel events =
        ⟨-1, some s, some errClosed, [], events⟩) ∧
      (∀ addrOut buflen fuel events,
        socket_receive_from (some s) addrOut (some ()) (buflen + 1) fuel events =
        ⟨(-1, none), some s, some errClosed, [], events⟩) ∧
      (∀ buflen fuel events, socket_send (some s) (some ()) (buflen + 1) fuel events =
        ⟨-1, some s, some errClosed, [], events⟩) ∧
      (∀ a buflen fuel events, socket_send_to (some s) (some a) (some ()) buflen fuel events =
        ⟨-1, some s, some errClosed, [], events⟩) ∧
      (∀ r w events, socket_shutdown (some s) r w events =
        ⟨false, some s, some errClosed, [], events⟩) ∧
      (∀ dir size events, socket_set_buffer_size (some s) dir size events =
        ⟨false, some s, some errClosed, [], events⟩) ∧
      (∀ cond fuel events, socket_io_condition_wait (some s) cond fuel events =
        ⟨false, some s, some errClosed, [], events⟩) := by
  intro s h
  refine ⟨?_, ?_, ?_, ?_, ?_, ?_, ?_, ?_, ?_, ?_, ?_⟩ <;>
    intros <;>
    simp [socket_bind, socket_connect, socket_listen, socket_accept, socket_receive,
      socket_receive_from, socket_send, socket_send_to, socket_shutdown,
      socket_set_buffer_size, socket_io_condition_wait, _XX__socket_check, h]

/-- Witness for C3: `socket_receive` on a concrete closed handle. -/
theorem closed_socket_operations_guarded_witness :
    socket_receive (some witnessClosedSocket) (some ()) 16 1 [] =
      ⟨-1, some witnessClosedSocket, some errClosed, [], []⟩ :=
  ((closed_socket_operations_guarded witnessClosedSocket rfl).2.2.2.2.1) 16 1 []

/-- Counterexample to C4 as stated: on an open non-blocking socket,
`socket_receive` with `buflen = 0` (and `socket_send_to` likewise) does not
return -1 with an invalid-argument error — the zero-length request is passed
through to the syscall (`recv`/`sendto` appears in the trace) and its result
is returned. -/
theorem receive_zero_buflen_counterexample :
    (socket_receive (some witnessOpenSocketB) (some ()) 0 1 [⟨0, 0, 0, []⟩]).ret = 0 ∧
    (socket_receive (some witnessOpenSocketB) (some ()) 0 1 [⟨0, 0, 0, []⟩]).err = none ∧
    (socket_receive (some witnessOpenSocketB) (some ()) 0 1 [⟨0, 0, 0, []⟩]).trace =
      [.sysRecv 0] ∧
    (socket_send_to (some witnessOpenSocketB) (some witnessConnectAddr) (some ()) 0 1
      [⟨0, 0, 0, []⟩]).ret = 0 ∧
    (socket_send_to (some witnessOpenSocketB) (some witnessConnectAddr) (some ()) 0 1
      [⟨0, 0, 0, []⟩]).trace = [.sysSendTo 0] := by
  refine ⟨?_, ?_, ?_, ?_, ?_⟩ <;> decide

/-- Claim C4 as amended: a NULL buffer is an invalid-argument failure (-1,
no syscall) for all four transfer operations, and a zero-length buffer is
one for `socket_receive_from` and `socket_send` — but not for
`socket_receive` and `socket_send_to`, which pass the zero length through
to the syscall. -/
theorem invalid_buffer_guards :
    ∀ s : Socket, s.closed = false →
      (∀ buflen fuel events, socket_receive (some s) none buflen fuel events =
        ⟨-1, some s, some (errInvalidArgument "Invalid input argument"), [], events⟩) ∧
      (∀ addrOut buflen fuel events,
        socket_receive_from (some s) addrOut none buflen fuel events =
        ⟨(-1, none), some s, some (errInvalidArgument "Invalid input argument"), [], events⟩) ∧
      (∀ addrOut fuel events,
        socket_receive_from (some s) addrOut (some ()) 0 fuel events =
        ⟨(-1, none), some s, some (errInvalidArgument "Invalid input argument"), [], events⟩) ∧
      (∀ buflen fuel events, socket_send (some s) none buflen fuel events =
        ⟨-1, some s, some (errInvalidArgument "Invalid input argument"), [], events⟩) ∧
      (∀ fuel events, socket_send (some s) (some ()) 0 fuel events =
        ⟨-1, some s, some (errInvalidArgument "Invalid input argument"), [], events⟩) ∧
      (∀ a buflen fuel events, socket_send_to (some s) a none buflen fuel events =
        ⟨-1, some s, some (errInvalidArgument "Invalid input argument"), [], events⟩) ∧
      (∀ buffer buflen fuel events,
        socket_send_to (some s) none buffer buflen fuel events =
        ⟨-1, some s, some (errInvalidArgument "Invalid input argument"), [], events⟩) := by
  intro s _
  refine ⟨?_, ?_, ?_, ?_, ?_, ?_, ?_⟩ <;>
    intros <;>
    simp [socket_receive, socket_receive_from, socket_send, socket_send_to]

/-- Witness for C4 (amended): `socket_send` with `buflen = 0` on a concrete
open socket. -/
theorem invalid_buffer_guards_witness :
    socket_send (some witnessOpenSocketB) (some ()) 0 1 [] =
      ⟨-1, some witnessOpenSocketB, some (errInvalidArgument "Invalid input argument"),
       [], []⟩ :=
  ((invalid_buffer_guards witnessOpenSocketB rfl).2.2.2.2.1) 1 []

/-- Counterexample to C5 as stated: when the immediate non-blocking connect
fails with `EINPROGRESS`, the recorded error kind is `ERROR_IO_IN_PROGRESS`,
not the would-block kind. -/
theorem connect_nonblocking_inprogress_counterexample :
    (socket_connect (some witnessOpenSocket) (some witnessConnectAddr) 1
      [⟨-1, EINPROGRESS, 0, []⟩]).ret = false ∧
    (socket_connect (some witnessOpenSocket) (some witnessConnectAddr) 1
      [⟨-1, EINPROGRESS, 0, []⟩]).err =
      some (errSys .ERROR_IO_IN_PROGRESS EINPROGRESS "Couldn't block non-blocking socket") ∧
    errorIOCode .ERROR_IO_IN_PROGRESS ≠ errorIOCode .ERROR_IO_WOULD_BLOCK := by
  refine ⟨?_, ?_, ?_⟩ <;> decide

/-- Claim C5 as amended: on a non-blocking socket whose immediate connect
reports a would-block or in-progress condition, `socket_connect` returns
false without invoking the readiness wait (the trace is exactly the connect
syscall — no poll), and the recorded error is the classification of the
immediate errno: would-block for `EAGAIN`/`EWOULDBLOCK`, in-progress for
`EINPROGRESS`/`EALREADY`. -/
theorem connect_nonblocking_no_wait :
    ∀ (s : Socket) (a : SocketAddress) (e : SysRes) (rest : List SysRes) (fuel : Nat),
      s.closed = false → s.blocking = false →
      a.family ≠ .SOCKET_FAMILY_UNKNOWN →
      e.ret ≠ 0 → e.errno ≠ EINTR →
      (error_get_io_from_system e.errno = .ERROR_IO_WOULD_BLOCK ∨
       error_get_io_from_system e.errno = .ERROR_IO_IN_PROGRESS) →
      socket_connect (some s) (some a) fuel (e :: rest) =
        ⟨false, some s,
         some (errSys (error_get_io_from_system e.errno) e.errno
           "Couldn't block non-blocking socket"),
         [.sysConnect], rest⟩ := by
  rintro s ⟨fam, addr, p, fi, sc⟩ e rest fuel hclosed hblocking hfam hret heintr hkind
  cases fam
  · exact absurd rfl hfam
  · rcases hkind with hk | hk <;>
      simp [socket_connect, _XX__socket_check, hclosed, hblocking,
        socket_address_to_native, sizeof_sockaddr_storage, sizeof_sockaddr_in,
        sizeof_sockaddr_in6, socket_connect_syscall_loop, hret, heintr, hk]
  · rcases hkind with hk | hk <;>
      simp [socket_connect, _XX__socket_check, hclosed, hblocking,
        socket_address_to_native, sizeof_sockaddr_storage, sizeof_sockaddr_in,
        sizeof_sockaddr_in6, socket_connect_syscall_loop, hret, heintr, hk]

/-- Witness for C5 (amended): a concrete non-blocking connect failing with
`EAGAIN`. -/
theorem connect_nonblocking_no_wait_witness :
    socket_connect (some witnessOpenSocket) (some witnessConnectAddr) 1
      [⟨-1, EAGAIN, 0, []⟩] =
      ⟨false, some witnessOpenSocket,
       some (errSys .ERROR_IO_WOULD_BLOCK EAGAIN "Couldn't block non-blocking socket"),
       [.sysConnect], []⟩ := by
  have h := connect_nonblocking_no_wait witnessOpenSocket witnessConnectAddr
    ⟨-1, EAGAIN, 0, []⟩ [] 1 rfl rfl (by decide) (by decide) (by decide) (by decide)
  simpa using h

/-- Claim C6: readiness-wait timeout semantics.  With a configured timeout
of 0, `socket_io_condition_wait` passes the unbounded value -1 to every
poll it issues and — provided the prescribed poll outcomes respect poll's
contract for an unbounded wait (never reporting elapsed timeout, and never
failing with an errno of the timed-out class) — never records a timed-out
error.  With a positive configured timeout, a poll outcome of 0 makes it
return false with `ERROR_IO_TIMED_OUT` recorded. -/
theorem io_condition_wait_timeout_semantics :
    (∀ (s : Socket) (cond : SocketIOCondition) (fuel : Nat) (events : List SysRes),
      s.closed = false → s.timeout = 0 →
      ∀ (t : Int) (c : SocketIOCondition),
        Syscall.sysPoll t c ∈
          (socket_io_condition_wait (some s) cond fuel events).trace → t = -1) ∧
    (∀ (s : Socket) (cond : SocketIOCondition) (fuel : Nat) (events : List SysRes),
      s.closed = false → s.timeout = 0 →
      (∀ e ∈ events, e.ret ≠ 0 ∧
        error_get_io_from_system e.errno ≠ .ERROR_IO_TIMED_OUT) →
      ∀ st, (socket_io_condition_wait (some s) cond fuel events).err = some st →
        st.code ≠ errorIOCode .ERROR_IO_TIMED_OUT) ∧
    (∀ (s : Socket) (cond : SocketIOCondition) (fuel : Nat) (e : SysRes)
        (rest : List SysRes),
      s.closed = false → 0 < s.timeout → e.ret = 0 →
      socket_io_condition_wait (some s) cond (fuel + 1) (e :: rest) =
        ⟨false, some s,
         some (errSys .ERROR_IO_TIMED_OUT e.errno
           "Timed out while waiting socket condition"),
         [.sysPoll s.timeout cond], rest⟩) := by
  refine ⟨?_, ?_, ?_⟩
  · intro s cond fuel events hclosed htimeout t c h
    simp [socket_io_condition_wait, _XX__socket_check, hclosed, htimeout] at h
    exact (wait_loop_poll_timeout_arg s cond (-1) fuel events t c h).1
  · intro s cond fuel events hclosed htimeout hev st h
    simp [socket_io_condition_wait, _XX__socket_check, hclosed, htimeout] at h
    exact wait_loop_no_timed_out s cond (-1) fuel events hev st h
  · intro s cond fuel e rest hclosed htimeout hret
    have h0 : ¬ e.ret = -1 := by omega
    simp [socket_io_condition_wait, _XX__socket_check, hclosed, htimeout,
      socket_io_condition_wait_loop, hret, h0, Int.lt_iff_le_and_ne, htimeout.le,
      htimeout.ne]

/-- Witness for C6: concrete waits on a timeout-0 socket (unbounded poll,
non-timed-out failure) and on a 5000 ms-timeout socket whose poll reports
elapsed timeout. -/
theorem io_condition_wait_timeout_semantics_witness :
    ((-1 : Int) = -1) ∧
    ((errSys .ERROR_IO_INVALID_ARGUMENT EINVAL "Failed to call poll() on socket").code ≠
      errorIOCode .ERROR_IO_TIMED_OUT) ∧
    socket_io_condition_wait (some witnessTimeoutSocket) .SOCKET_IO_CONDITION_POLLIN 1
      [⟨0, 0, 0, []⟩] =
      ⟨false, some witnessTimeoutSocket,
       some (errSys .ERROR_IO_TIMED_OUT 0 "Timed out while waiting socket condition"),
       [.sysPoll 5000 .SOCKET_IO_CONDITION_POLLIN], []⟩ :=
  ⟨io_condition_wait_timeout_semantics.1 witnessOpenSocket .SOCKET_IO_CONDITION_POLLIN 1
      [⟨1, 0, 0, []⟩] rfl rfl (-1) .SOCKET_IO_CONDITION_POLLIN (by decide),
   io_condition_wait_timeout_semantics.2.1 witnessOpenSocket .SOCKET_IO_CONDITION_POLLIN 1
      [⟨-1, EINVAL, 0, []⟩] rfl rfl (by decide)
      (errSys .ERROR_IO_INVALID_ARGUMENT EINVAL "Failed to call poll() on socket")
      (by decide),
   by
    have h := io_condition_wait_timeout_semantics.2.2 witnessTimeoutSocket
      .SOCKET_IO_CONDITION_POLLIN 0 ⟨0, 0, 0, []⟩ [] rfl (by decide) rfl
    simpa using h⟩

/-- Claim C7: `socket_close` is idempotent.  On an already-closed handle it
returns true immediately without touching the descriptor; a first
successful close clears `connected` and `listening`, marks `closed`,
invalidates the descriptor (`fd = -1`) and releases the descriptor exactly
once, after which every further close returns true with no syscall. -/
theorem close_idempotent :
    (∀ (s : Socket) (events : List SysRes), s.closed = true →
      socket_close (some s) events = ⟨true, some s, none, [], events⟩) ∧
    (∀ (s : Socket) (e : SysRes) (rest : List SysRes), s.closed = false → e.ret = 0 →
      ∃ s2, socket_close (some s) (e :: rest) =
          ⟨true, some s2, none, [.sysClose], rest⟩ ∧
        s2.closed = true ∧ s2.connected = false ∧ s2.listening = false ∧ s2.fd = -1 ∧
        (∀ events2, socket_close (some s2) events2 =
          ⟨true, some s2, none, [], events2⟩)) := by
  constructor
  · intro s events h
    simp [socket_close, h]
  · intro s e rest h hret
    refine ⟨{ s with connected := false, closed := true, listening := false, fd := -1 },
      ?_, rfl, rfl, rfl, rfl, ?_⟩
    · simp [socket_close, h, popEvent, hret]
    · intro events2
      simp [socket_close]

/-- Witness for C7: closing an already-closed handle and double-closing a
concrete open handle. -/
theorem close_idempotent_witness :
    (socket_close (some witnessClosedSocket) [] =
      ⟨true, some witnessClosedSocket, none, [], []⟩) ∧
    (∃ s2, socket_close (some witnessOpenSocket) [⟨0, 0, 0, []⟩] =
        ⟨true, some s2, none, [.sysClose], []⟩ ∧
      s2.closed = true ∧ s2.connected = false ∧ s2.listening = false ∧ s2.fd = -1 ∧
      (∀ events2, socket_close (some s2) events2 =
        ⟨true, some s2, none, [], events2⟩)) :=
  ⟨close_idempotent.1 witnessClosedSocket [] rfl,
   close_idempotent.2 witnessOpenSocket ⟨0, 0, 0, []⟩ [] rfl rfl⟩

/-- Claim C8: numeric-only address parsing.  `"127.0.0.1"` parses to a
loopback address, `"0.0.0.0"` to an any-address, `"::1"` to an IPv6
address, and `"not-an-address"` fails. -/
theorem numeric_parse_cases :
    socket_address_is_loopback (socket_address_new (some "127.0.0.1") 8080) = true ∧
    socket_address_is_any (socket_address_new (some "0.0.0.0") 0) = true ∧
    socket_address_get_family (socket_address_new (some "::1") 443) =
      .SOCKET_FAMILY_INET6 ∧
    socket_address_new (some "not-an-address") 80 = none := by
  refine ⟨?_, ?_, ?_, ?_⟩ <;> decide

/-- Counterexample to C9 as stated: in this repository's build, where
nothing defines `PLIBSYS_SOCKADDR_IN6_HAS_FLOWINFO`/`..._HAS_SCOPEID`,
setting flow-info (or scope-id) 1 on a concrete IPv6 address and reading it
back yields 0, not 1. -/
theorem flow_info_setters_counterexample :
    witnessAddr6C9.family = .SOCKET_FAMILY_INET6 ∧
    socket_address_get_flow_info sockaddr_in6_has_flowinfo
      (socket_address_set_flow_info sockaddr_in6_has_flowinfo (some witnessAddr6C9) 1) = 0 ∧
    socket_address_get_scope_id sockaddr_in6_has_scope_id
      (socket_address_set_scope_id sockaddr_in6_has_scope_id (some witnessAddr6C9) 1) = 0 := by
  refine ⟨rfl, ?_, ?_⟩ <;> decide

/-- Claim C9 as amended: when the platform feature macros are defined, the
flow-info and scope-id setters are effective exactly on IPv6 addresses
(set-then-get returns the value; non-IPv6 addresses are left unchanged and
read 0); in this repository's build the macros are undefined, and the
setters are no-ops and the getters return 0 for every address. -/
theorem flow_info_setters_conditional :
    (∀ (a : SocketAddress) (v : Nat), a.family = .SOCKET_FAMILY_INET6 →
      socket_address_get_flow_info true
        (socket_address_set_flow_info true (some a) v) = v ∧
      socket_address_get_scope_id true
        (socket_address_set_scope_id true (some a) v) = v) ∧
    (∀ (a : SocketAddress) (v : Nat), a.family ≠ .SOCKET_FAMILY_INET6 →
      socket_address_set_flow_info true (some a) v = some a ∧
      socket_address_set_scope_id true (some a) v = some a ∧
      socket_address_get_flow_info true (some a) = 0 ∧
      socket_address_get_scope_id true (some a) = 0) ∧
    (sockaddr_in6_has_flowinfo = false ∧ sockaddr_in6_has_scope_id = false) ∧
    (∀ (a : SocketAddress) (v : Nat),
      socket_address_set_flow_info false (some a) v = some a ∧
      socket_address_set_scope_id false (some a) v = some a ∧
      socket_address_get_flow_info false (some a) = 0 ∧
      socket_address_get_scope_id false (some a) = 0) := by
  refine ⟨?_, ?_, ⟨rfl, rfl⟩, ?_⟩
  · intro a v h
    constructor <;>
      simp [socket_address_get_flow_info, socket_address_set_flow_info,
        socket_address_get_scope_id, socket_address_set_scope_id, h]
  · intro a v h
    refine ⟨?_, ?_, ?_, ?_⟩ <;>
      simp [socket_address_get_flow_info, socket_address_set_flow_info,
        socket_address_get_scope_id, socket_address_set_scope_id, h]
  · intro a v
    refine ⟨?_, ?_, ?_, ?_⟩ <;>
      simp [socket_address_get_flow_info, socket_address_set_flow_info,
        socket_address_get_scope_id, socket_address_set_scope_id]

/-- Witness for C9 (amended): concrete IPv6 and IPv4 addresses under the
macro-defined configuration. -/
theorem flow_info_setters_conditional_witness :
    (socket_address_get_flow_info true
      (socket_address_set_flow_info true (some witnessAddr6C9) 7) = 7 ∧
     socket_address_get_scope_id true
      (socket_address_set_scope_id true (some witnessAddr6C9) 7) = 7) ∧
    (socket_address_set_flow_info true (some witnessConnectAddr) 7 =
      some witnessConnectAddr ∧
     socket_address_set_scope_id true (some witnessConnectAddr) 7 =
      some witnessConnectAddr ∧
     socket_address_get_flow_info true (some witnessConnectAddr) = 0 ∧
     socket_address_get_scope_id true (some witnessConnectAddr) = 0) :=
  ⟨flow_info_setters_conditional.1 witnessAddr6C9 7 rfl,
   flow_info_setters_conditional.2.1 witnessConnectAddr 7 (by decide)⟩

/-- Claim C10: null-handle totality of the query and release interface —
each read-only accessor and release function accepts NULL and returns its
fixed default, and the release functions on NULL have no effect. -/
theorem null_handle_defaults :
    socket_get_fd none = -1 ∧
    socket_is_closed none = true ∧
    socket_is_connected none = false ∧
    socket_address_get_family none = .SOCKET_FAMILY_UNKNOWN ∧
    socket_address_get_port none = 0 ∧
    socket_address_free none = false ∧
    (∀ events, socket_free none events = ⟨false, none, none, [], events⟩) :=
  ⟨rfl, rfl, rfl, rfl, rfl, rfl, fun _ => rfl⟩

end Sockpuppet
